import Mathlib

/-!
Shallow embedding of the match/persistence subsystem of the ft_transcendence
repository: the `Game` entity (src/server/src/game/game.entity.ts), the
`GameService` sequelize queries, the `UserGameController` REST endpoints,
`AuthService.verifyTOTP`, and the client-side matchmaking polling loop of the
`Game` React component.

Database tables are modelled as lists of rows.  A list's order is the
enumeration order of an unordered SELECT: the queries in the source never pass
an ORDER BY clause, so the DBMS guarantees no relation between this order and
the rows' creation times; `createdAt` is carried explicitly on each row.
`findOne` is the first row of the filtered table, `findAll` the filtered table.
An HttpException aborting a request is modelled as `Except.error`; an `.error`
result performs no store write.
-/

/-- Rows of the User table; only the column the verified operations read. -/
structure User where
  login : String
deriving DecidableEq, Repr

/-- Rows of the Game table (game.entity.ts): id (UUID, modelled as Nat),
isRanked, status, nullable invitee, and the sequelize createdAt timestamp. -/
structure Game where
  id : Nat
  isRanked : Bool
  status : String
  invitee : Option String
  createdAt : Nat
deriving DecidableEq, Repr

/-- Rows of the UserGame through table: user login, game id, score. -/
structure UserGame where
  userLogin : String
  gameId : Nat
  score : Int
deriving DecidableEq, Repr

/-- The database state: the three tables and the clock stamping createdAt. -/
structure Store where
  usersT : List User
  games : List Game
  userGames : List UserGame
  clock : Nat
deriving DecidableEq, Repr

/-- The five values of the status ENUM column declared in game.entity.ts;
the column rejects every other value. -/
def gameStatusEnum : List String :=
  ["ongoing", "finished", "abandoned", "waiting", "invitation"]

/-- The `users` association of a game (BelongsToMany through UserGame),
materialised by the `include: all` of every GameService query: the logins of
the user-game rows linked to the game. -/
def gameUserLogins (s : Store) (gid : Nat) : List String :=
  (s.userGames.filter (fun ug => ug.gameId == gid)).map (fun ug => ug.userLogin)

/-- Modelled from the spec: identity lookup `findPlayer(login) -> Player |
NotFound` (section 6); the UserService source file is not under src/.  Looks a
user up by login. -/
def UserService.findByLogin (s : Store) (login : String) : Option User :=
  s.usersT.find? (fun u => u.login == login)

/-- GameService.findById: `findOne` on the Game table filtered by id. -/
def GameService.findById (s : Store) (id : Nat) : Option Game :=
  s.games.find? (fun g => g.id == id)

/-- GameService.findOngoing: `findAll` where status is ongoing, then the
source's filter keeping games whose users contain the login. -/
def GameService.findOngoing (s : Store) (login : String) : List Game :=
  (s.games.filter (fun g => g.status == "ongoing")).filter
    (fun g => (gameUserLogins s g.id).any (fun l => l == login))

/-- GameService.findByPlayer: the where clause is the spread
`...(isRanked ? \x7b isRanked \x7d : \x7b\x7d)` — a ranked filter only when the argument
is true — followed by the filter keeping games whose users contain the login. -/
def GameService.findByPlayer (s : Store) (login : String) (isRanked : Bool) :
    List Game :=
  (s.games.filter (fun g => if isRanked then g.isRanked == isRanked else true)).filter
    (fun g => (gameUserLogins s g.id).any (fun l => l == login))

/-- GameService.findWaiting: `findOne` where status is waiting and isRanked
equals the argument.  No ORDER BY is passed, so the row returned is the first
in the store's (unspecified) enumeration order. -/
def GameService.findWaiting (s : Store) (isRanked : Bool) : Option Game :=
  (s.games.filter (fun g => g.status == "waiting" && g.isRanked == isRanked)).head?

/-- GameService.findPlayable: `findAll` where status is waiting or invitation,
then the source's filter: the user is in the game, or he is the invitee, or
there is a place and the game is not an invitation. -/
def GameService.findPlayable (s : Store) (login : String) : List Game :=
  (s.games.filter (fun g => g.status == "waiting" || g.status == "invitation")).filter
    (fun g =>
      (gameUserLogins s g.id).any (fun l => l == login) ||
      g.invitee == some login ||
      ((gameUserLogins s g.id).length < 2 && g.status != "invitation"))

/-- The GameDto handed to GameService.create: ranked flag, status, invitee and
the users added to the created game by the `add users` call. -/
structure GameDto where
  isRanked : Bool
  status : String
  invitee : Option String
  users : List String
deriving DecidableEq, Repr

/-- The dto handed to GameService.update: the target id and the columns the
caller sets (absent fields are left unchanged by the sequelize update). -/
structure GameUpdateDto where
  id : Nat
  status : Option String
  isRanked : Option Bool
deriving DecidableEq, Repr

/-- A fresh primary key for an inserted game row. -/
def freshGameId (s : Store) : Nat :=
  s.games.foldr (fun g m => max (g.id + 1) m) 0

/-- The HTTP error of an HttpException: status code and message. -/
structure HttpError where
  status : Nat
  message : String
deriving DecidableEq, Repr

/-- GameService.create: inserts the game row and the through rows for
`add users`.  The status ENUM column (game.entity.ts) rejects any value
outside `gameStatusEnum`; the resulting throw is caught by the source and
rethrown as a 500 HttpException, and nothing is written. -/
def GameService.create (s : Store) (dto : GameDto) :
    Except HttpError (Store × Game) :=
  if gameStatusEnum.contains dto.status then
    let g : Game :=
      { id := freshGameId s, isRanked := dto.isRanked, status := dto.status,
        invitee := dto.invitee, createdAt := s.clock }
    let rows := dto.users.map
      (fun l => ({ userLogin := l, gameId := g.id, score := 0 } : UserGame))
    .ok ({ s with games := s.games ++ [g],
                  userGames := s.userGames ++ rows,
                  clock := s.clock + 1 }, g)
  else .error { status := 500, message := "Internal Server Error" }

/-- The column assignments of a GameService.update call applied to a row. -/
def applyGameUpdate (dto : GameUpdateDto) (g : Game) : Game :=
  { g with status := dto.status.getD g.status,
           isRanked := dto.isRanked.getD g.isRanked }

/-- GameService.update: sequelize `update(gameDto, where id)` — sets the
given columns on every row with the given id and returns the count; a status
outside the ENUM is rejected by the column and surfaces as the caught 500. -/
def GameService.update (s : Store) (dto : GameUpdateDto) :
    Except HttpError (Store × Nat) :=
  if (match dto.status with
      | some st => gameStatusEnum.contains st
      | none => true) then
    let games2 :=
      s.games.map (fun g => if g.id == dto.id then applyGameUpdate dto g else g)
    .ok ({ s with games := games2 },
         (s.games.filter (fun g => g.id == dto.id)).length)
  else .error { status := 500, message := "Internal Server Error" }

/-- Modelled from the spec: the Match Record Store read of a game's occupant
rows (section 2); the UserGameService source file is not under src/.  Returns
the user-game rows linked to the game. -/
def UserGameService.findByGame (s : Store) (gid : Nat) : List UserGame :=
  s.userGames.filter (fun ug => ug.gameId == gid)

/-- Modelled from the spec: lookup of one occupant row by game and user; the
UserGameService source file is not under src/. -/
def UserGameService.findByUserAndGame (s : Store) (gid : Nat) (login : String) :
    Option UserGame :=
  s.userGames.find? (fun ug => ug.gameId == gid && ug.userLogin == login)

/-- Modelled from the spec: the Match Record Store insert of one occupant row
(section 2); the UserGameService source file is not under src/.  Inserts the
row built by the controller. -/
def UserGameService.create (s : Store) (gid : Nat) (login : String)
    (score : Int) : Store × UserGame :=
  let ug : UserGame := { userLogin := login, gameId := gid, score := score }
  ({ s with userGames := s.userGames ++ [ug] }, ug)

/-- Modelled from the spec: the Match Record Store persists the scores it is
given — `recordResult` of section 6 assigns no validation to the store; the
UserGameService source file is not under src/.  Writes the given score on the
matching row and returns the count of updated rows. -/
def UserGameService.update (s : Store) (gid : Nat) (login : String)
    (score : Int) : Store × Nat :=
  let rows :=
    s.userGames.map (fun ug =>
      if ug.gameId == gid && ug.userLogin == login then
        { ug with score := score } else ug)
  ({ s with userGames := rows },
   (s.userGames.filter
       (fun ug => ug.gameId == gid && ug.userLogin == login)).length)

/-- UserGameController.create (POST /user-game): rejects a falsy login (400),
a missing user or game (404), a game already linked to 2 user-games
(409 Game is full), a duplicate participant (409), and otherwise inserts one
user-game row with score 0. -/
def UserGameController.create (s : Store) (userLogin : String) (gameId : Nat) :
    Except HttpError (Store × UserGame) :=
  if userLogin == "" then
    .error { status := 400, message := "Missing parameters" }
  else
    match UserService.findByLogin s userLogin with
    | none => .error { status := 404, message := "User Not Found" }
    | some _user =>
      match GameService.findById s gameId with
      | none => .error { status := 404, message := "Game Not Found" }
      | some _game =>
        let user_games := UserGameService.findByGame s gameId
        if user_games.length >= 2 then
          .error { status := 409, message := "Game is full" }
        else if user_games.any (fun ug => ug.userLogin == userLogin) then
          .error { status := 409, message := "User already in game" }
        else
          .ok (UserGameService.create s gameId userLogin 0)

/-- UserGameController.update (PATCH /user-game/game/:id/player/:login):
rejects a falsy login (400) and a missing user, game or user-game (404), then
hands the parsed score to the service write unchanged — the endpoint performs
no range check on the score. -/
def UserGameController.update (s : Store) (id : Nat) (login : String)
    (score : Int) : Except HttpError (Store × Nat) :=
  if login == "" then
    .error { status := 400, message := "Missing parameters" }
  else
    match UserService.findByLogin s login with
    | none => .error { status := 404, message := "User Not Found" }
    | some _user =>
      match GameService.findById s id with
      | none => .error { status := 404, message := "Game Not Found" }
      | some _game =>
        match UserGameService.findByUserAndGame s id login with
        | none => .error { status := 404, message := "UserGame Not Found" }
        | some _ug => .ok (UserGameService.update s id login score)

/-- AuthService.verifyTOTP (auth.service.ts): the body is `return true`. -/
def AuthService.verifyTOTP (totp : Int) (A2FSecret : String) : Bool :=
  true

/-!
Client-side matchmaking loop of the Game React component: the mount effect
starts a `setInterval` of 1000 ms whose callback emits `joinWaitRoom`; the
`startGame` socket handler sets `hasFoundGame`; the effect keyed on
`hasFoundGame` clears the interval on the re-render that observes it.  The
component is modelled as a state machine driven by three events: a timer tick,
the `startGame` socket event, and the re-render that runs the clearing effect.
-/

/-- The period, in milliseconds, of the `setInterval` emitting joinWaitRoom. -/
def joinWaitRoomIntervalMs : Nat := 1000

/-- The matchmaking-relevant state of the Game component: the `hasFoundGame`
flag, whether the polling interval is still installed, and the log of
`joinWaitRoom` emits. -/
structure GameClient where
  hasFoundGame : Bool
  loopActive : Bool
  emitted : List String
deriving DecidableEq, Repr

/-- The component state after the mount effect: interval installed, no game. -/
def GameClient.init : GameClient :=
  { hasFoundGame := false, loopActive := true, emitted := [] }

/-- Events driving the Game component. -/
inductive ClientEvent
  | tick
  | startGame
  | render
deriving DecidableEq, Repr

/-- One step of the Game component: a tick emits joinWaitRoom while the
interval is installed; `startGame` sets hasFoundGame; the re-render effect
clears the interval once hasFoundGame is observed. -/
def clientStep (c : GameClient) : ClientEvent → GameClient
  | .tick =>
    if c.loopActive then { c with emitted := c.emitted ++ ["joinWaitRoom"] }
    else c
  | .startGame => { c with hasFoundGame := true }
  | .render =>
    if c.hasFoundGame && c.loopActive then { c with loopActive := false }
    else c

/-- The Game component run over a sequence of events. -/
def runClient (c : GameClient) (evs : List ClientEvent) : GameClient :=
  evs.foldl clientStep c

/-!
The room scoring machine, modelled from the spec: the gateway source that
drives a match to its terminal status is not under src/.  Section 4.2: the
room is `ongoing` once both players joined, moves to `finished` when either
score reaches 11, and to `abandoned` on forfeit; section 4.3 step 2 increments
the opposing player's score by one point at a time, and step 3 checks the
score-limit condition after each point.
-/

/-- The closed status variant of a room (section 3). -/
inductive RoomStatus
  | waiting
  | ongoing
  | finished
  | abandoned
  | invitation
deriving DecidableEq, Repr

/-- Modelled from the spec: the scores and status of one room (section 3). -/
structure Room where
  scoreA : Nat
  scoreB : Nat
  status : RoomStatus
deriving DecidableEq, Repr

/-- Modelled from the spec: the room state right after the second occupant
attaches (`waiting` to `ongoing`, section 4.2), scores 0 to 0. -/
def Room.start : Room :=
  { scoreA := 0, scoreB := 0, status := .ongoing }

/-- Events of the room scoring machine: a point for either side, a forfeit. -/
inductive RoomEvent
  | pointA
  | pointB
  | forfeit
deriving DecidableEq, Repr

/-- Modelled from the spec: one scoring step of the room (sections 4.2, 4.3):
a point increments one score and moves the room to `finished` when either
score reaches 11; a forfeit of an ongoing room moves it to `abandoned`;
terminal rooms take no further transition. -/
def roomStep (r : Room) : RoomEvent → Room
  | .pointA =>
    if r.status = .ongoing then
      let r2 := { r with scoreA := r.scoreA + 1 }
      if r2.scoreA = 11 ∨ r2.scoreB = 11 then { r2 with status := .finished }
      else r2
    else r
  | .pointB =>
    if r.status = .ongoing then
      let r2 := { r with scoreB := r.scoreB + 1 }
      if r2.scoreA = 11 ∨ r2.scoreB = 11 then { r2 with status := .finished }
      else r2
    else r
  | .forfeit =>
    if r.status = .ongoing then { r with status := .abandoned }
    else r

/-- The room machine run over a sequence of events. -/
def runRoom (r : Room) (evs : List RoomEvent) : Room :=
  evs.foldl roomStep r

/-- The score constraint claim C5 states for stored matches, written from the
claim's words (a refinement-style predicate, to be compared with what the
embedded store operations preserve): every game with status finished has
exactly one occupant row with score 11 and every other row below 11. -/
def spec_finishedScoreConstraint (s : Store) : Bool :=
  s.games.all (fun g =>
    if g.status == "finished" then
      let scores := (UserGameService.findByGame s g.id).map (fun ug => ug.score)
      ((scores.filter (fun x => x == 11)).length == 1) &&
      (scores.all (fun x => x == 11 || decide (x < 11)))
    else true)

/-!
Concrete stores used by the counterexamples and witnesses below.
-/

/-- A store whose single game already holds two occupant rows. -/
def storeC1 : Store :=
  { usersT := [{ login := "a" }, { login := "b" }, { login := "c" }],
    games := [{ id := 1, isRanked := false, status := "waiting",
                invitee := none, createdAt := 0 }],
    userGames := [{ userLogin := "a", gameId := 1, score := 0 },
                  { userLogin := "b", gameId := 1, score := 0 }],
    clock := 1 }

/-- A store with an ongoing game whose occupants have scores 3 and 2. -/
def storeC4 : Store :=
  { usersT := [{ login := "a" }, { login := "b" }],
    games := [{ id := 1, isRanked := false, status := "ongoing",
                invitee := none, createdAt := 0 }],
    userGames := [{ userLogin := "a", gameId := 1, score := 3 },
                  { userLogin := "b", gameId := 1, score := 2 }],
    clock := 1 }

/-- storeC4 after the score of player a is patched to 15. -/
def storeC4after : Store :=
  { storeC4 with
    userGames := [{ userLogin := "a", gameId := 1, score := 15 },
                  { userLogin := "b", gameId := 1, score := 2 }] }

/-- A store with a finished game won 11 to 3 by player a. -/
def storeC5 : Store :=
  { usersT := [{ login := "a" }, { login := "b" }],
    games := [{ id := 1, isRanked := false, status := "finished",
                invitee := none, createdAt := 0 }],
    userGames := [{ userLogin := "a", gameId := 1, score := 11 },
                  { userLogin := "b", gameId := 1, score := 3 }],
    clock := 1 }

/-- storeC5 after the winning score is patched down to 3. -/
def storeC5after : Store :=
  { storeC5 with
    userGames := [{ userLogin := "a", gameId := 1, score := 3 },
                  { userLogin := "b", gameId := 1, score := 3 }] }

/-- The newer of the two compatible waiting games of storeC6. -/
def gNewC6 : Game :=
  { id := 2, isRanked := false, status := "waiting",
    invitee := none, createdAt := 5 }

/-- The older of the two compatible waiting games of storeC6. -/
def gOldC6 : Game :=
  { id := 1, isRanked := false, status := "waiting",
    invitee := none, createdAt := 1 }

/-- A store holding two compatible casual waiting games in which the store's
enumeration order puts the newer game first (nothing in the schema or the
queries ties the enumeration order of an unordered SELECT to createdAt). -/
def storeC6 : Store :=
  { usersT := [{ login := "a" }, { login := "b" }],
    games := [gNewC6, gOldC6],
    userGames := [{ userLogin := "a", gameId := 2, score := 0 },
                  { userLogin := "b", gameId := 1, score := 0 }],
    clock := 6 }

/-- A pending invitation game for invitee a. -/
def gC9 : Game :=
  { id := 1, isRanked := false, status := "invitation",
    invitee := some "a", createdAt := 0 }

/-- A store with one pending invitation game for invitee a, with one occupant
row, used to instantiate the findPlayable soundness theorem. -/
def storeC9 : Store :=
  { usersT := [{ login := "a" }, { login := "b" }],
    games := [gC9],
    userGames := [{ userLogin := "b", gameId := 1, score := 0 }],
    clock := 1 }

/-- The inductive invariant of the room scoring machine: an ongoing room has
both scores below 11; a finished room has exactly one score equal to 11 and
the other strictly below 11. -/
def RoomInv (r : Room) : Prop :=
  (r.status = .ongoing → r.scoreA < 11 ∧ r.scoreB < 11) ∧
  (r.status = .finished →
    (r.scoreA = 11 ∧ r.scoreB < 11) ∨ (r.scoreB = 11 ∧ r.scoreA < 11))

/-- The empty store. -/
def store0 : Store :=
  { usersT := [], games := [], userGames := [], clock := 0 }

/-!
Theorems.
-/

/-- While the polling interval is installed, every tick appends exactly one
joinWaitRoom emit and leaves the flags unchanged. -/
theorem runClient_tick_of_loopActive (n : Nat) :
    ∀ c : GameClient, c.loopActive = true →
      runClient c (List.replicate n .tick) =
        { c with emitted := c.emitted ++ List.replicate n "joinWaitRoom" } := by
  induction n with
  | zero => intro c h; simp [runClient]
  | succ n ih =>
    intro c h
    have hstep : clientStep c .tick =
        { c with emitted := c.emitted ++ ["joinWaitRoom"] } := by
      simp [clientStep, h]
    have : runClient c (List.replicate (n + 1) .tick) =
        runClient (clientStep c .tick) (List.replicate n .tick) := by
      simp [runClient, List.replicate_succ]
    rw [this, hstep, ih _ (by simp [h])]
    simp [List.replicate_succ]

/-- Once the polling interval is cleared, ticks change nothing. -/
theorem runClient_tick_of_loopInactive (m : Nat) :
    ∀ c : GameClient, c.loopActive = false →
      runClient c (List.replicate m .tick) = c := by
  induction m with
  | zero => intro c h; simp [runClient]
  | succ m ih =>
    intro c h
    have hstep : clientStep c .tick = c := by simp [clientStep, h]
    have : runClient c (List.replicate (m + 1) .tick) =
        runClient (clientStep c .tick) (List.replicate m .tick) := by
      simp [runClient, List.replicate_succ]
    rw [this, hstep, ih _ h]

/-- After the startGame handler runs and the re-render effect fires, the
polling interval is no longer installed. -/
theorem loopInactive_after_startGame_render (c : GameClient) :
    (clientStep (clientStep c .startGame) .render).loopActive = false := by
  cases hc : c.loopActive <;> simp [clientStep, hc]

/-- Claim C7: the client joins matchmaking by a periodic polling loop: the
interval constant is 1000 ms; until a startGame event is received every tick
re-emits one joinWaitRoom request (n ticks from the initial state yield
exactly n emits and leave the loop installed); and once a game is found
(startGame followed by the re-render effect) the interval is cleared, so
further ticks change nothing and emit nothing. -/
theorem C7_polling_loop (n m : Nat) (c : GameClient) :
    joinWaitRoomIntervalMs = 1000 ∧
    runClient GameClient.init (List.replicate n .tick) =
      { hasFoundGame := false, loopActive := true,
        emitted := List.replicate n "joinWaitRoom" } ∧
    runClient (clientStep (clientStep c .startGame) .render)
        (List.replicate m .tick) =
      clientStep (clientStep c .startGame) .render := by
  refine ⟨rfl, ?_, ?_⟩
  · have h := runClient_tick_of_loopActive n GameClient.init rfl
    simpa [GameClient.init] using h
  · exact runClient_tick_of_loopInactive m _
      (loopInactive_after_startGame_render c)

/-- Claim C8: AuthService.verifyTOTP returns true for every pair of inputs:
the second-factor credential check accepts every credential unconditionally. -/
theorem C8_verifyTOTP_accepts_all (totp : Int) (A2FSecret : String) :
    AuthService.verifyTOTP totp A2FSecret = true :=
  rfl

/-- Membership in the users association of a game, unfolded to the through
table: a login is among a game's users exactly when some user-game row links
it to the game. -/
theorem mem_gameUserLogins (s : Store) (gid : Nat) (login : String) :
    login ∈ gameUserLogins s gid ↔
      ∃ ug ∈ s.userGames, ug.gameId = gid ∧ ug.userLogin = login := by
  simp [gameUserLogins, List.mem_map, List.mem_filter, and_assoc]

/-- Claim C3: GameService.findOngoing is exact: for every login, it returns
precisely the games whose status is ongoing and whose user list contains a
user with that login, and no others. -/
theorem C3_findOngoing_exact (s : Store) (login : String) (g : Game) :
    g ∈ GameService.findOngoing s login ↔
      g ∈ s.games ∧ g.status = "ongoing" ∧
        ∃ ug ∈ s.userGames, ug.gameId = g.id ∧ ug.userLogin = login := by
  simp [GameService.findOngoing, List.mem_filter, mem_gameUserLogins, and_assoc]
  tauto

/-- Claim C10: GameService.findByPlayer filters by ranked flag asymmetrically:
with argument true it returns exactly the player's ranked games; with argument
false the ranked filter is dropped and it returns exactly all of the player's
games regardless of their isRanked flag. -/
theorem C10_findByPlayer_asymmetric (s : Store) (login : String) (g : Game) :
    (g ∈ GameService.findByPlayer s login true ↔
      g ∈ s.games ∧ g.isRanked = true ∧
        ∃ ug ∈ s.userGames, ug.gameId = g.id ∧ ug.userLogin = login) ∧
    (g ∈ GameService.findByPlayer s login false ↔
      g ∈ s.games ∧
        ∃ ug ∈ s.userGames, ug.gameId = g.id ∧ ug.userLogin = login) := by
  constructor
  · simp [GameService.findByPlayer, List.mem_filter, mem_gameUserLogins,
      and_assoc]
    tauto
  · simp [GameService.findByPlayer, List.mem_filter, mem_gameUserLogins,
      and_assoc]

/-- Claim C9: every game returned by GameService.findPlayable has status
waiting or invitation and satisfies one of: the login is among its users, the
game's invitee equals the login, or the game has fewer than 2 users and is not
an invitation; consequently a pending invitation game is only offered to its
invitee or to a user already in it. -/
theorem C9_findPlayable_sound (s : Store) (login : String) (g : Game)
    (h : g ∈ GameService.findPlayable s login) :
    (g.status = "waiting" ∨ g.status = "invitation") ∧
    ((∃ ug ∈ s.userGames, ug.gameId = g.id ∧ ug.userLogin = login) ∨
      g.invitee = some login ∨
      ((gameUserLogins s g.id).length < 2 ∧ g.status ≠ "invitation")) ∧
    (g.status = "invitation" →
      (∃ ug ∈ s.userGames, ug.gameId = g.id ∧ ug.userLogin = login) ∨
        g.invitee = some login) := by
  simp [GameService.findPlayable, List.mem_filter, mem_gameUserLogins] at h
  obtain ⟨hmem, hcond, hstat⟩ := h
  refine ⟨hstat, ?_, ?_⟩
  · rcases hcond with (hc | hc) | hc
    · exact Or.inl hc
    · exact Or.inr (Or.inl hc)
    · exact Or.inr (Or.inr hc)
  · intro hinv
    rcases hcond with (hc | hc) | hc
    · exact Or.inl hc
    · exact Or.inr hc
    · exact absurd hinv hc.2

/-- Witness for C9: on the concrete store with a pending invitation for a,
the invitation game is playable for a and the soundness theorem applies. -/
theorem C9_findPlayable_sound_witness :
    gC9 ∈ GameService.findPlayable storeC9 "a" ∧
    ((gC9.status = "waiting" ∨ gC9.status = "invitation") ∧
     ((∃ ug ∈ storeC9.userGames, ug.gameId = gC9.id ∧ ug.userLogin = "a") ∨
       gC9.invitee = some "a" ∨
       ((gameUserLogins storeC9 gC9.id).length < 2 ∧ gC9.status ≠ "invitation")) ∧
     (gC9.status = "invitation" →
       (∃ ug ∈ storeC9.userGames, ug.gameId = gC9.id ∧ ug.userLogin = "a") ∨
         gC9.invitee = some "a")) :=
  ⟨by decide, C9_findPlayable_sound storeC9 "a" gC9 (by decide)⟩

/-- Amended C6: the selected waiting game always matches the mode partition
(status waiting, isRanked equal to the argument), but no ordering is imposed
on which compatible candidate is selected. -/
theorem C6_mode_partition (s : Store) (isRanked : Bool) (g : Game)
    (h : GameService.findWaiting s isRanked = some g) :
    g ∈ s.games ∧ g.status = "waiting" ∧ g.isRanked = isRanked := by
  unfold GameService.findWaiting at h
  cases hl : s.games.filter
      (fun g2 => g2.status == "waiting" && g2.isRanked == isRanked) with
  | nil => rw [hl] at h; simp at h
  | cons a t =>
    rw [hl] at h
    simp [List.head?] at h
    subst h
    have ha : a ∈ s.games.filter
        (fun g2 => g2.status == "waiting" && g2.isRanked == isRanked) := by
      rw [hl]; exact List.mem_cons_self a t
    rcases List.mem_filter.mp ha with ⟨hmem, hcond⟩
    simp at hcond
    exact ⟨hmem, hcond.1, hcond.2⟩

/-- Witness for C6: the partition theorem applied to the concrete storeC6. -/
theorem C6_mode_partition_witness :
    GameService.findWaiting storeC6 false = some gNewC6 ∧
    (gNewC6 ∈ storeC6.games ∧ gNewC6.status = "waiting" ∧
      gNewC6.isRanked = false) :=
  ⟨rfl, C6_mode_partition storeC6 false gNewC6 rfl⟩

/-- Counterexample to C6 as stated: in storeC6 both games are compatible
casual waiting candidates and gOldC6 is strictly older, yet findWaiting
selects gNewC6 — the query imposes no ordering, so the oldest candidate is
not necessarily the one selected. -/
theorem C6_counterexample :
    GameService.findWaiting storeC6 false = some gNewC6 ∧
    gOldC6 ∈ storeC6.games ∧ gOldC6.status = "waiting" ∧
    gOldC6.isRanked = false ∧ gOldC6.createdAt < gNewC6.createdAt ∧
    gNewC6 ≠ gOldC6 :=
  ⟨rfl, by decide, rfl, rfl, by decide, by decide⟩

/-- Shape of a successful UserGameController.create: the games table is
untouched, exactly one user-game row with score 0 is appended, and the game
had strictly fewer than 2 occupant rows before the call. -/
theorem create_ok_shape (s : Store) (login : String) (gid : Nat)
    (s2 : Store) (ug : UserGame)
    (h : UserGameController.create s login gid = .ok (s2, ug)) :
    s2.games = s.games ∧
    s2.userGames = s.userGames ++
      [{ userLogin := login, gameId := gid, score := 0 }] ∧
    (UserGameService.findByGame s gid).length < 2 := by
  unfold UserGameController.create at h
  split at h
  · exact absurd h (by simp)
  · split at h
    · exact absurd h (by simp)
    · split at h
      · exact absurd h (by simp)
      · dsimp only at h
        split at h
        · exact absurd h (by simp)
        · split at h
          · exact absurd h (by simp)
          · rename_i hnotfull hnotin
            simp [UserGameService.create] at h
            obtain ⟨hs2, hug⟩ := h
            refine ⟨?_, ?_, ?_⟩
            · rw [← hs2]
            · rw [← hs2]
            · omega

/-- UserGameController.create on a game already linked to 2 user-games fails
with 409 Game is full (for an existing user and game and a non-empty login). -/
theorem create_full_rejected (s : Store) (login : String) (gid : Nat)
    (hlogin : (login == "") = false)
    (hu : (UserService.findByLogin s login).isSome = true)
    (hg : (GameService.findById s gid).isSome = true)
    (hfull : 2 ≤ (UserGameService.findByGame s gid).length) :
    UserGameController.create s login gid =
      .error { status := 409, message := "Game is full" } := by
  rcases Option.isSome_iff_exists.mp hu with ⟨u, hu2⟩
  rcases Option.isSome_iff_exists.mp hg with ⟨g, hg2⟩
  simp [UserGameController.create, hlogin, hu2, hg2, hfull]

/-- A successful UserGameController.create preserves the 2-occupant bound on
every game. -/
theorem createPreservesCapacity (s0 : Store) (l0 : String) (g0 : Nat)
    (s2 : Store) (ug2 : UserGame)
    (hok : UserGameController.create s0 l0 g0 = .ok (s2, ug2))
    (hbound : ∀ gm ∈ s0.games,
      (UserGameService.findByGame s0 gm.id).length ≤ 2) :
    ∀ gm ∈ s2.games, (UserGameService.findByGame s2 gm.id).length ≤ 2 := by
  obtain ⟨hgames, hrows, hlt⟩ := create_ok_shape s0 l0 g0 s2 ug2 hok
  intro gm hm
  rw [hgames] at hm
  have hb := hbound gm hm
  unfold UserGameService.findByGame at hb hlt ⊢
  rw [hrows, List.filter_append, List.length_append]
  by_cases hid : g0 = gm.id
  · subst hid
    simp only [List.filter]
    simp
    omega
  · have hnil : List.filter (fun ug => ug.gameId == gm.id)
        [({ userLogin := l0, gameId := g0, score := 0 } : UserGame)] = [] := by
      simp [hid]
    rw [hnil]
    simpa using hb

/-- Claim C1: the number of occupant slots of a game never exceeds 2:
UserGameController.create, called for an existing game that already has 2
user-game rows, fails with 409 Conflict Game is full and (being an error)
adds no user-game row; and every successful create preserves the 2-row bound
on every game. -/
theorem C1_room_capacity (s : Store) (login : String) (gid : Nat)
    (hlogin : (login == "") = false)
    (hu : (UserService.findByLogin s login).isSome = true)
    (hg : (GameService.findById s gid).isSome = true)
    (hfull : 2 ≤ (UserGameService.findByGame s gid).length) :
    UserGameController.create s login gid =
      .error { status := 409, message := "Game is full" } ∧
    ∀ s0 l0 g0 s2 ug2,
      UserGameController.create s0 l0 g0 = .ok (s2, ug2) →
      (∀ gm ∈ s0.games, (UserGameService.findByGame s0 gm.id).length ≤ 2) →
      ∀ gm ∈ s2.games, (UserGameService.findByGame s2 gm.id).length ≤ 2 := by
  constructor
  · exact create_full_rejected s login gid hlogin hu hg hfull
  · intro s0 l0 g0 s2 ug2 hok hbound
    exact createPreservesCapacity s0 l0 g0 s2 ug2 hok hbound

/-- Witness for C1: the concrete storeC1 has a game with 2 occupant rows and
the theorem applies: creating a third occupant fails with Game is full. -/
theorem C1_room_capacity_witness :
    ((("c" : String) == "") = false ∧
     (UserService.findByLogin storeC1 "c").isSome = true ∧
     (GameService.findById storeC1 1).isSome = true ∧
     2 ≤ (UserGameService.findByGame storeC1 1).length) ∧
    UserGameController.create storeC1 "c" 1 =
      .error { status := 409, message := "Game is full" } :=
  ⟨⟨by decide, by decide, by decide, by decide⟩,
   (C1_room_capacity storeC1 "c" 1 (by decide) (by decide) (by decide)
     (by decide)).1⟩

/-- Shape of a successful GameService.create: the status passed the ENUM
check, and the created game carrying exactly the dto's status is appended. -/
theorem gameCreate_ok_shape (s : Store) (dto : GameDto) (s2 : Store) (g2 : Game)
    (h : GameService.create s dto = .ok (s2, g2)) :
    gameStatusEnum.contains dto.status = true ∧
    s2.games = s.games ++ [g2] ∧ g2.status = dto.status := by
  unfold GameService.create at h
  split at h
  · rename_i hc
    dsimp only at h
    simp at h
    obtain ⟨hs2, hg2⟩ := h
    refine ⟨by simpa using hc, ?_, ?_⟩
    · rw [← hs2, ← hg2]
    · rw [← hg2]
  · exact absurd h (by simp)

/-- Claim C2: the Game status is drawn from the closed ENUM set: creating or
updating a game with a status outside the set is rejected (the store accepts
no such write), and both operations preserve the invariant that every stored
game's status lies in the set — so no reachable game record carries another
status. -/
theorem C2_status_closed :
    (∀ s dto, gameStatusEnum.contains dto.status = false →
        GameService.create s dto =
          .error { status := 500, message := "Internal Server Error" }) ∧
    (∀ s dto st, dto.status = some st → gameStatusEnum.contains st = false →
        GameService.update s dto =
          .error { status := 500, message := "Internal Server Error" }) ∧
    (∀ s dto s2 g2, GameService.create s dto = .ok (s2, g2) →
        (∀ g ∈ s.games, gameStatusEnum.contains g.status = true) →
        ∀ g ∈ s2.games, gameStatusEnum.contains g.status = true) ∧
    (∀ s dto s2 n, GameService.update s dto = .ok (s2, n) →
        (∀ g ∈ s.games, gameStatusEnum.contains g.status = true) →
        ∀ g ∈ s2.games, gameStatusEnum.contains g.status = true) := by
  refine ⟨?_, ?_, ?_, ?_⟩
  · intro s dto h
    have h2 : dto.status ∉ gameStatusEnum := by simpa using h
    simp [GameService.create, h2]
  · intro s dto st hst h
    have h2 : st ∉ gameStatusEnum := by simpa using h
    simp [GameService.update, hst, h2]
  · intro s dto s2 g2 hok hbound g hm
    obtain ⟨hc, hgames, hstat⟩ := gameCreate_ok_shape s dto s2 g2 hok
    rw [hgames] at hm
    rcases List.mem_append.mp hm with hold | hnew
    · exact hbound g hold
    · have hgg : g = g2 := by simpa using hnew
      rw [hgg, hstat]
      exact hc
  · intro s dto s2 n hok hbound g hm
    unfold GameService.update at hok
    split at hok
    · rename_i hc
      dsimp only at hok
      simp at hok
      obtain ⟨hs2, hn⟩ := hok
      rw [← hs2] at hm
      simp only [List.mem_map] at hm
      obtain ⟨g0, hg0, heq⟩ := hm
      by_cases hid : g0.id = dto.id
      · rw [← heq]
        cases hst : dto.status with
        | none =>
          simp only [applyGameUpdate, hst, Option.getD_none]
          have hb := hbound g0 hg0
          simp [hid]
          simpa using hb
        | some st =>
          rw [hst] at hc
          simp only [applyGameUpdate, hst, Option.getD_some]
          simp [hid]
          simpa using hc
      · rw [← heq]
        simp [hid]
        simpa using hbound g0 hg0
    · exact absurd hok (by simp)

/-- Witness for C2: a creation with the out-of-set status corrupt on the
empty store is rejected with the 500 of the caught ENUM violation. -/
theorem C2_status_closed_witness :
    gameStatusEnum.contains "corrupt" = false ∧
    GameService.create store0
        { isRanked := false, status := "corrupt",
          invitee := none, users := [] } =
      .error { status := 500, message := "Internal Server Error" } :=
  ⟨by decide, C2_status_closed.1 store0
    { isRanked := false, status := "corrupt", invitee := none, users := [] }
    (by decide)⟩

/-- Counterexample to C4 as stated: on storeC4 (an existing user, game and
user-game), UserGameController.update with score 15 succeeds and leaves a
user-game row with score 15, which exceeds 11: the endpoint performs no
score-range validation. -/
theorem C4_counterexample :
    UserGameController.update storeC4 1 "a" 15 = .ok (storeC4after, 1) ∧
    ({ userLogin := "a", gameId := 1, score := 15 } : UserGame)
      ∈ storeC4after.userGames ∧
    (11 : Int) < 15 :=
  ⟨rfl, by decide, by decide⟩

/-- Amended C4: UserGameController.update performs no range validation on the
score: whenever the user, game and user-game exist, it succeeds and writes
exactly the given score — including values above 11 — on the matching row. -/
theorem C4_no_score_validation (s : Store) (id : Nat) (login : String)
    (score : Int)
    (hlogin : (login == "") = false)
    (hu : (UserService.findByLogin s login).isSome = true)
    (hg : (GameService.findById s id).isSome = true)
    (hug : (UserGameService.findByUserAndGame s id login).isSome = true) :
    UserGameController.update s id login score =
      .ok (UserGameService.update s id login score) ∧
    ∀ ug ∈ (UserGameService.update s id login score).1.userGames,
      ug.gameId = id → ug.userLogin = login → ug.score = score := by
  constructor
  · rcases Option.isSome_iff_exists.mp hu with ⟨u, hu2⟩
    rcases Option.isSome_iff_exists.mp hg with ⟨g, hg2⟩
    rcases Option.isSome_iff_exists.mp hug with ⟨w, hw2⟩
    simp [UserGameController.update, hlogin, hu2, hg2, hw2]
  · intro ug hm h1 h2
    unfold UserGameService.update at hm
    dsimp only at hm
    rcases List.mem_map.mp hm with ⟨ug0, hm0, heq⟩
    by_cases hcond : (ug0.gameId == id && ug0.userLogin == login) = true
    · rw [← heq]
      simp [hcond]
    · rw [← heq] at h1 h2
      simp [hcond] at h1 h2
      exact absurd (by simp [h1, h2]) hcond

/-- Witness for C4: the amended theorem applied to storeC4 with score 15. -/
theorem C4_no_score_validation_witness :
    ((("a" : String) == "") = false ∧
     (UserService.findByLogin storeC4 "a").isSome = true ∧
     (GameService.findById storeC4 1).isSome = true ∧
     (UserGameService.findByUserAndGame storeC4 1 "a").isSome = true) ∧
    (UserGameController.update storeC4 1 "a" 15 =
      .ok (UserGameService.update storeC4 1 "a" 15) ∧
     ∀ ug ∈ (UserGameService.update storeC4 1 "a" 15).1.userGames,
       ug.gameId = 1 → ug.userLogin = "a" → ug.score = 15) :=
  ⟨⟨by decide, by decide, by decide, by decide⟩,
   C4_no_score_validation storeC4 1 "a" 15 (by decide) (by decide) (by decide)
     (by decide)⟩

/-- Counterexample to C5 as stated: storeC5 holds a finished match won 11 to
3; the admin PATCH endpoint UserGameController.update then rewrites the
winning score to 3 and succeeds, leaving a finished match in which no score
equals 11 — the store imposes no score constraint on terminal matches. -/
theorem C5_counterexample :
    UserGameController.update storeC5 1 "a" 3 = .ok (storeC5after, 1) ∧
    (∃ g ∈ storeC5after.games, g.status = "finished") ∧
    spec_finishedScoreConstraint storeC5after = false :=
  ⟨rfl, by decide, rfl⟩

/-- Each scoring or forfeit step preserves the room invariant. -/
theorem roomStep_inv (r : Room) (e : RoomEvent) (h : RoomInv r) :
    RoomInv (roomStep r e) := by
  obtain ⟨a, b, st⟩ := r
  obtain ⟨hong, hfin⟩ := h
  cases e <;> cases st <;>
    simp_all [roomStep, RoomInv] <;> split_ifs <;> simp_all <;> omega

/-- The room invariant holds along every run of the scoring machine. -/
theorem runRoom_inv (evs : List RoomEvent) :
    ∀ r : Room, RoomInv r → RoomInv (runRoom r evs) := by
  induction evs with
  | nil => intro r h; exact h
  | cons e t ih =>
    intro r h
    exact ih (roomStep r e) (roomStep_inv r e h)

/-- Amended C5: a match driven to status finished by the (spec-modelled) room
scoring loop has exactly one side's score equal to 11 and the other side's
score strictly below 11 (an abandoned room carries no score constraint); the
persistence layer itself does not enforce this, per the counterexample. -/
theorem C5_loop_terminal_scores (evs : List RoomEvent)
    (h : (runRoom Room.start evs).status = .finished) :
    ((runRoom Room.start evs).scoreA = 11 ∧
      (runRoom Room.start evs).scoreB < 11) ∨
    ((runRoom Room.start evs).scoreB = 11 ∧
      (runRoom Room.start evs).scoreA < 11) := by
  have hinv : RoomInv Room.start := by
    constructor
    · intro _
      exact ⟨by decide, by decide⟩
    · intro h2
      exact absurd h2 (by decide)
  exact (runRoom_inv evs Room.start hinv).2 h

/-- Witness for C5: a run of 11 straight points for side A finishes the room
and the amended theorem applies: side A holds 11, side B holds less. -/
theorem C5_loop_terminal_scores_witness :
    (runRoom Room.start (List.replicate 11 RoomEvent.pointA)).status =
      .finished ∧
    (((runRoom Room.start (List.replicate 11 RoomEvent.pointA)).scoreA = 11 ∧
      (runRoom Room.start (List.replicate 11 RoomEvent.pointA)).scoreB < 11) ∨
     ((runRoom Room.start (List.replicate 11 RoomEvent.pointA)).scoreB = 11 ∧
      (runRoom Room.start (List.replicate 11 RoomEvent.pointA)).scoreA < 11)) :=
  ⟨by decide, C5_loop_terminal_scores (List.replicate 11 RoomEvent.pointA)
    (by decide)⟩
